import Mathlib

set_option linter.unusedVariables false

/-!
Shallow embedding of the llm-playground adapter layer.

Source files embedded:
- `api/index.py`: the Flask HTTP surface (`chat` handler and the four
  `get_*_response` adapters);
- `app.py`: the Streamlit session-UI surface (the four `get_*_response`
  adapters and the chat-form submit dispatch);
- `api_config.py`: `APIConfig._get_env_var` and the key getters.

External vendor SDK interactions (client construction plus the actual
network call) are modelled as oracle functions collected in `Vendors`:
each takes the resolved API key (possibly absent) and the request the
adapter built, and either returns the response text (`Except.ok`) or
raises a Python exception whose `str` is the carried message
(`Except.error`).  A Python function that may raise is embedded as a
computation in `Except String`; `try/except` blocks are embedded by
matching on that value.
-/

namespace LLMPlayground

/-- A chat message as the Python code handles it: a dict with a `role`
string and a `content` that is either a JSON string or `null`/`None`
(the HTTP handler can append a `None` content when the request body has
no `message` key). -/
structure Message where
  role : String
  content : Option String
deriving DecidableEq, Repr

/-- Python `str()` of an optional string, as used by f-string
interpolation: `None` prints as `"None"`. -/
def pyStr : Option String → String
  | none => "None"
  | some s => s

/-- Request shape built by the openai / anthropic / groq adapters:
model, message list, temperature and max_tokens handed to the vendor
chat-completion call. -/
structure ChatRequest where
  model : Option String
  messages : List Message
  temperature : Rat
  max_tokens : Int
deriving DecidableEq, Repr

/-- Request shape built by the `api/index.py` google adapter: one
flattened prompt string plus a generation config. -/
structure GoogleGenRequest where
  model : Option String
  prompt : String
  temperature : Rat
  max_output_tokens : Int
deriving DecidableEq, Repr

/-- One entry of the chat history the `app.py` google adapter builds:
`{"role": ..., "parts": [content]}`. -/
structure GHistEntry where
  role : String
  parts : List (Option String)
deriving DecidableEq, Repr

/-- Request shape built by the `app.py` google adapter:
`start_chat(history=...)` followed by `send_message(user_input)`. -/
structure GoogleChatRequest where
  model : String
  history : List GHistEntry
  new_turn : String
deriving DecidableEq, Repr

/-- The external vendor SDKs, as oracles.  Each field models client
construction plus the vendor call for one API shape: given the resolved
API key and the request the adapter built, it returns response text or
raises (error = the exception's string form). -/
structure Vendors where
  openaiChat : Option String → ChatRequest → Except String String
  anthropicMessages : Option String → ChatRequest → Except String String
  googleGenerate : Option String → GoogleGenRequest → Except String String
  googleChat : Option String → GoogleChatRequest → Except String String
  groqChat : Option String → ChatRequest → Except String String

/-- A Python `try: return body except Exception as e: return tag + str(e)`
block: a raised exception is converted into a normally returned string
carrying the given diagnostic tag. -/
def pyTry (tag : String) (body : Except String String) : Except String String :=
  match body with
  | Except.ok t => Except.ok t
  | Except.error e => Except.ok (tag ++ e)

/-- Conversation append, `messages.append(m)` in the source (both
surfaces): the message goes at the end, in order. -/
def appendMessage (conversation : List Message) (m : Message) : List Message :=
  conversation ++ [m]

/-- Python truthiness of an optional string: `None` and `""` are falsy. -/
def pyTruthy : Option String → Bool
  | none => false
  | some s => !s.isEmpty

/-- A single-quote character, for reproducing the source's error text. -/
def squote : String := String.singleton (Char.ofNat 39)

/-- `APIConfig._get_env_var` from `api_config.py`.  `secretsApiKeys`
models the Streamlit `st.secrets.api_keys` namespace when Streamlit is
available and the secrets store has an `api_keys` section (otherwise
`none`; an exception while probing the store falls through to the
environment, which the `none` case also covers).  `env` models
`os.getenv`.  Resolution: secrets first, then `os.getenv(key, default)`;
raises `ValueError` when `required` is set and the result is falsy. -/
def get_env_var (secretsApiKeys : Option (String → Option String))
    (env : String → Option String) (key : String)
    (default : Option String) (required : Bool) : Except String (Option String) :=
  let v1 : Option String :=
    match secretsApiKeys with
    | some store => store key
    | none => none
  let v2 : Option String :=
    match v1 with
    | none =>
      match env key with
      | some v => some v
      | none => default
    | some v => some v
  if required && !(pyTruthy v2) then
    Except.error ("Required environment variable " ++ squote ++ key ++ squote ++ " not found")
  else
    Except.ok v2

/-- `APIConfig.get_openai_key`. -/
def get_openai_key (secrets : Option (String → Option String))
    (env : String → Option String) : Except String (Option String) :=
  get_env_var secrets env "OPENAI_API_KEY" none false

/-- `APIConfig.get_anthropic_key`. -/
def get_anthropic_key (secrets : Option (String → Option String))
    (env : String → Option String) : Except String (Option String) :=
  get_env_var secrets env "ANTHROPIC_API_KEY" none false

/-- `APIConfig.get_gemini_key` (reads `GOOGLE_API_KEY`). -/
def get_gemini_key (secrets : Option (String → Option String))
    (env : String → Option String) : Except String (Option String) :=
  get_env_var secrets env "GOOGLE_API_KEY" none false

/-- `APIConfig.get_groq_key`. -/
def get_groq_key (secrets : Option (String → Option String))
    (env : String → Option String) : Except String (Option String) :=
  get_env_var secrets env "GROQ_API_KEY" none false

namespace Api

/-- `get_openai_response` from `api/index.py`: key from
`os.getenv("OPENAI_API_KEY")`, vendor chat-completion call with model,
messages, temperature, max_tokens; any exception becomes the string
`"OpenAI Error: " + str(e)`. -/
def get_openai_response (vendors : Vendors) (env : String → Option String)
    (messages : List Message) (model : Option String)
    (temperature : Rat) (max_tokens : Int) : Except String String :=
  pyTry "OpenAI Error: "
    (vendors.openaiChat (env "OPENAI_API_KEY")
      { model := model, messages := messages,
        temperature := temperature, max_tokens := max_tokens })

/-- `get_anthropic_response` from `api/index.py`. -/
def get_anthropic_response (vendors : Vendors) (env : String → Option String)
    (messages : List Message) (model : Option String)
    (temperature : Rat) (max_tokens : Int) : Except String String :=
  pyTry "Anthropic Error: "
    (vendors.anthropicMessages (env "ANTHROPIC_API_KEY")
      { model := model, messages := messages,
        temperature := temperature, max_tokens := max_tokens })

/-- The flattening loop of `get_google_response` in `api/index.py`:
starting from the empty string, each message appends
`("Human" if role == "user" else "Assistant") + ": " + content + "\n"`. -/
def conversation_text (messages : List Message) : String :=
  messages.foldl
    (fun acc msg =>
      acc ++ ((if msg.role = "user" then "Human" else "Assistant")
        ++ ": " ++ pyStr msg.content ++ "\n"))
    ""

/-- `get_google_response` from `api/index.py`: key from
`os.getenv("GOOGLE_API_KEY")`, the whole conversation flattened to one
prompt string, one `generate_content` call; any exception becomes
`"Google Error: " + str(e)`. -/
def get_google_response (vendors : Vendors) (env : String → Option String)
    (messages : List Message) (model : Option String)
    (temperature : Rat) (max_tokens : Int) : Except String String :=
  pyTry "Google Error: "
    (vendors.googleGenerate (env "GOOGLE_API_KEY")
      { model := model, prompt := conversation_text messages,
        temperature := temperature, max_output_tokens := max_tokens })

/-- `get_groq_response` from `api/index.py`. -/
def get_groq_response (vendors : Vendors) (env : String → Option String)
    (messages : List Message) (model : Option String)
    (temperature : Rat) (max_tokens : Int) : Except String String :=
  pyTry "Groq Error: "
    (vendors.groqChat (env "GROQ_API_KEY")
      { model := model, messages := messages,
        temperature := temperature, max_tokens := max_tokens })

/-- The provider if/elif chain of the `chat` handler in `api/index.py`:
`some` of the chosen adapter's outcome for the four recognized provider
strings, `none` when no branch matches (the handler then answers
"Invalid provider" without calling any adapter). -/
def dispatchAdapter (provider : Option String) (vendors : Vendors)
    (env : String → Option String) (messages : List Message)
    (model : Option String) (temperature : Rat) (max_tokens : Int) :
    Option (Except String String) :=
  if provider = some "openai" then
    some (get_openai_response vendors env messages model temperature max_tokens)
  else if provider = some "anthropic" then
    some (get_anthropic_response vendors env messages model temperature max_tokens)
  else if provider = some "google" then
    some (get_google_response vendors env messages model temperature max_tokens)
  else if provider = some "groq" then
    some (get_groq_response vendors env messages model temperature max_tokens)
  else
    none

/-- JSON body of a `POST /api/chat` request, with the fields the handler
reads via `data.get(...)`: absent keys are `none`. -/
structure ChatBody where
  message : Option String
  provider : Option String
  model : Option String
  temperature : Option Rat
  max_tokens : Option Int
  messages : List Message
deriving DecidableEq, Repr

/-- JSON response of the `chat` handler: `{"success": true, "response": r}`
or `{"success": false, "error": e}`. -/
inductive ChatResponse where
  | success (response : String) : ChatResponse
  | failure (error : String) : ChatResponse
deriving DecidableEq, Repr

/-- The `chat` handler of `api/index.py`: append the user turn to the
supplied messages, dispatch by provider, wrap the returned string in a
success response; an unrecognized provider yields the "Invalid provider"
failure, and an exception escaping the handler body is caught by the
outer `except` and rendered as a failure (the adapters themselves never
raise, so that branch fires only for raised exceptions). -/
def chat (vendors : Vendors) (env : String → Option String)
    (body : ChatBody) : ChatResponse :=
  let messages := appendMessage body.messages { role := "user", content := body.message }
  let temperature := body.temperature.getD (7 / 10 : Rat)
  let max_tokens := body.max_tokens.getD 1000
  match dispatchAdapter body.provider vendors env messages body.model temperature max_tokens with
  | some (Except.ok t) => ChatResponse.success t
  | some (Except.error e) => ChatResponse.failure e
  | none => ChatResponse.failure "Invalid provider"

end Api

namespace AppUI

/-- `get_openai_response` from `app.py`: key via
`api_config.get_openai_key()`, messages copied entry by entry into the
vendor format, temperature and max_tokens from the session state; any
exception becomes `"Error: " + str(e)`. -/
def get_openai_response (vendors : Vendors)
    (secrets : Option (String → Option String)) (env : String → Option String)
    (user_input : String) (messages : List Message) (model : String)
    (temperature : Rat) (max_tokens : Int) : Except String String :=
  pyTry "Error: "
    ((get_openai_key secrets env).bind fun key =>
      vendors.openaiChat key
        { model := some model,
          messages := messages.map (fun msg => { role := msg.role, content := msg.content }),
          temperature := temperature, max_tokens := max_tokens })

/-- `get_anthropic_response` from `app.py`. -/
def get_anthropic_response (vendors : Vendors)
    (secrets : Option (String → Option String)) (env : String → Option String)
    (user_input : String) (messages : List Message) (model : String)
    (temperature : Rat) (max_tokens : Int) : Except String String :=
  pyTry "Error: "
    ((get_anthropic_key secrets env).bind fun key =>
      vendors.anthropicMessages key
        { model := some model,
          messages := messages.map (fun msg => { role := msg.role, content := msg.content }),
          temperature := temperature, max_tokens := max_tokens })

/-- The request the `app.py` google adapter builds: history from
`messages[:-1]` with role `user` kept and every other role sent as
`model`, each content wrapped as a one-part list, and
`send_message(user_input)` as the new turn. -/
def googleChatRequestOf (user_input : String) (messages : List Message)
    (model : String) : GoogleChatRequest :=
  { model := model,
    history := messages.dropLast.map
      (fun msg =>
        { role := if msg.role = "user" then "user" else "model",
          parts := [msg.content] }),
    new_turn := user_input }

/-- `get_google_response` from `app.py`: key via
`api_config.get_gemini_key()`, chat history from all-but-the-last
message, `send_message(user_input)` as the new turn; any exception
becomes `"Error: " + str(e)`.  No generation parameters are passed. -/
def get_google_response (vendors : Vendors)
    (secrets : Option (String → Option String)) (env : String → Option String)
    (user_input : String) (messages : List Message) (model : String) :
    Except String String :=
  pyTry "Error: "
    ((get_gemini_key secrets env).bind fun key =>
      vendors.googleChat key (googleChatRequestOf user_input messages model))

/-- `get_groq_response` from `app.py`. -/
def get_groq_response (vendors : Vendors)
    (secrets : Option (String → Option String)) (env : String → Option String)
    (user_input : String) (messages : List Message) (model : String)
    (temperature : Rat) (max_tokens : Int) : Except String String :=
  pyTry "Error: "
    ((get_groq_key secrets env).bind fun key =>
      vendors.groqChat key
        { model := some model,
          messages := messages.map (fun msg => { role := msg.role, content := msg.content }),
          temperature := temperature, max_tokens := max_tokens })

/-- The provider if/elif chain of the chat-form submit handler in
`app.py` (lines 357-366): the selected provider chooses the adapter; an
unrecognized provider yields the plain string
`"Provider not configured."` without calling any adapter. -/
def submitDispatch (provider : String) (vendors : Vendors)
    (secrets : Option (String → Option String)) (env : String → Option String)
    (user_input : String) (messages : List Message) (model : String)
    (temperature : Rat) (max_tokens : Int) : Except String String :=
  if provider = "OpenAI" then
    get_openai_response vendors secrets env user_input messages model temperature max_tokens
  else if provider = "Anthropic" then
    get_anthropic_response vendors secrets env user_input messages model temperature max_tokens
  else if provider = "Google" then
    get_google_response vendors secrets env user_input messages model
  else if provider = "Groq" then
    get_groq_response vendors secrets env user_input messages model temperature max_tokens
  else
    Except.ok "Provider not configured."

/-- The chat-form submit handler's conversation update followed by its
dispatch: the user turn is appended to the session messages before the
adapter is chosen, and the appended list is what the adapter receives. -/
def chatFormSubmit (provider : String) (vendors : Vendors)
    (secrets : Option (String → Option String)) (env : String → Option String)
    (priorMessages : List Message) (user_input : String) (model : String)
    (temperature : Rat) (max_tokens : Int) : Except String String :=
  submitDispatch provider vendors secrets env user_input
    (appendMessage priorMessages { role := "user", content := some user_input })
    model temperature max_tokens

end AppUI

/-- A vendor world in which every call raises with message `e`
(covering auth failure, network failure, missing credential, and so on:
the adapters observe only the exception's string form). -/
def failVendors (e : String) : Vendors where
  openaiChat := fun _ _ => Except.error e
  anthropicMessages := fun _ _ => Except.error e
  googleGenerate := fun _ _ => Except.error e
  googleChat := fun _ _ => Except.error e
  groqChat := fun _ _ => Except.error e

/-- An empty process environment: every variable is unset. -/
def envEmpty : String → Option String := fun _ => none

/-! ## Helper lemmas shared by the claim theorems -/

/-- A caught block never raises: whatever the body did, `pyTry` returns
a plain value. -/
theorem pyTry_ok (tag : String) (body : Except String String) :
    ∃ t, pyTry tag body = Except.ok t := by
  cases body with
  | ok t => exact ⟨t, rfl⟩
  | error e => exact ⟨tag ++ e, rfl⟩

/-- `pyTry` on a raising body yields the tagged diagnostic. -/
theorem pyTry_error (tag e : String) :
    pyTry tag (Except.error e) = Except.ok (tag ++ e) := rfl

/-- `_get_env_var` with `required=False` never raises. -/
theorem get_env_var_ok (secrets : Option (String → Option String))
    (env : String → Option String) (key : String) (default : Option String) :
    ∃ v, get_env_var secrets env key default false = Except.ok v := by
  unfold get_env_var
  simp

theorem api_openai_ok (vendors : Vendors) (env : String → Option String)
    (messages : List Message) (model : Option String) (t : Rat) (k : Int) :
    ∃ r, Api.get_openai_response vendors env messages model t k = Except.ok r :=
  pyTry_ok _ _

theorem api_anthropic_ok (vendors : Vendors) (env : String → Option String)
    (messages : List Message) (model : Option String) (t : Rat) (k : Int) :
    ∃ r, Api.get_anthropic_response vendors env messages model t k = Except.ok r :=
  pyTry_ok _ _

theorem api_google_ok (vendors : Vendors) (env : String → Option String)
    (messages : List Message) (model : Option String) (t : Rat) (k : Int) :
    ∃ r, Api.get_google_response vendors env messages model t k = Except.ok r :=
  pyTry_ok _ _

theorem api_groq_ok (vendors : Vendors) (env : String → Option String)
    (messages : List Message) (model : Option String) (t : Rat) (k : Int) :
    ∃ r, Api.get_groq_response vendors env messages model t k = Except.ok r :=
  pyTry_ok _ _

theorem app_openai_ok (vendors : Vendors)
    (secrets : Option (String → Option String)) (env : String → Option String)
    (ui : String) (messages : List Message) (model : String) (t : Rat) (k : Int) :
    ∃ r, AppUI.get_openai_response vendors secrets env ui messages model t k = Except.ok r :=
  pyTry_ok _ _

theorem app_anthropic_ok (vendors : Vendors)
    (secrets : Option (String → Option String)) (env : String → Option String)
    (ui : String) (messages : List Message) (model : String) (t : Rat) (k : Int) :
    ∃ r, AppUI.get_anthropic_response vendors secrets env ui messages model t k = Except.ok r :=
  pyTry_ok _ _

theorem app_google_ok (vendors : Vendors)
    (secrets : Option (String → Option String)) (env : String → Option String)
    (ui : String) (messages : List Message) (model : String) :
    ∃ r, AppUI.get_google_response vendors secrets env ui messages model = Except.ok r :=
  pyTry_ok _ _

theorem app_groq_ok (vendors : Vendors)
    (secrets : Option (String → Option String)) (env : String → Option String)
    (ui : String) (messages : List Message) (model : String) (t : Rat) (k : Int) :
    ∃ r, AppUI.get_groq_response vendors secrets env ui messages model t k = Except.ok r :=
  pyTry_ok _ _

/-- Every branch of the session-UI dispatch returns a plain value. -/
theorem submitDispatch_ok (provider : String) (vendors : Vendors)
    (secrets : Option (String → Option String)) (env : String → Option String)
    (ui : String) (messages : List Message) (model : String) (t : Rat) (k : Int) :
    ∃ r, AppUI.submitDispatch provider vendors secrets env ui messages model t k = Except.ok r := by
  unfold AppUI.submitDispatch
  split_ifs
  · exact app_openai_ok ..
  · exact app_anthropic_ok ..
  · exact app_google_ok ..
  · exact app_groq_ok ..
  · exact ⟨_, rfl⟩

/-- Folding string concatenation over a list, at the character level. -/
theorem foldl_append_data (f : Message → String) (l : List Message) (acc : String) :
    (l.foldl (fun a m => a ++ f m) acc).data
      = acc.data ++ (l.map fun m => (f m).data).flatten := by
  induction l generalizing acc with
  | nil => simp
  | cons m l ih => simp [ih]

/-! ## Claim theorems -/

/-- C1: for every recognized provider and all conversations, models and
generation parameters, the dispatch-and-adapter call returns a value and
never raises, whatever the vendor interaction does: on the HTTP surface
the chosen `get_*_response` always yields `Except.ok`, and on the session
UI surface every dispatch outcome (any provider string at all) is
`Except.ok`, because each adapter wraps the vendor interaction in a
catch-all handler. -/
theorem adapters_never_raise (provider : String)
    (hp : provider ∈ (["openai", "anthropic", "google", "groq"] : List String))
    (vendors : Vendors) (secrets : Option (String → Option String))
    (env : String → Option String) (messages : List Message)
    (model : Option String) (mdl ui : String) (temperature : Rat) (max_tokens : Int) :
    (∃ t, Api.dispatchAdapter (some provider) vendors env messages model temperature max_tokens
        = some (Except.ok t)) ∧
    (∀ p : String,
      ∃ t, AppUI.submitDispatch p vendors secrets env ui messages mdl temperature max_tokens
          = Except.ok t) := by
  refine ⟨?_, fun p => submitDispatch_ok ..⟩
  simp only [List.mem_cons, List.not_mem_nil, or_false] at hp
  rcases hp with rfl | rfl | rfl | rfl
  · obtain ⟨r, hr⟩ := api_openai_ok vendors env messages model temperature max_tokens
    exact ⟨r, by simp [Api.dispatchAdapter, hr]⟩
  · obtain ⟨r, hr⟩ := api_anthropic_ok vendors env messages model temperature max_tokens
    exact ⟨r, by simp [Api.dispatchAdapter, hr]⟩
  · obtain ⟨r, hr⟩ := api_google_ok vendors env messages model temperature max_tokens
    exact ⟨r, by simp [Api.dispatchAdapter, hr]⟩
  · obtain ⟨r, hr⟩ := api_groq_ok vendors env messages model temperature max_tokens
    exact ⟨r, by simp [Api.dispatchAdapter, hr]⟩

/-- Witness for C1 at a concrete input: provider `"openai"`, an empty
environment, and a vendor world in which every call raises. -/
theorem adapters_never_raise_witness :
    ∃ t, Api.dispatchAdapter (some "openai") (failVendors "boom") envEmpty
        [{ role := "user", content := some "hi" }] (some "gpt-4o") (7 / 10) 1000
      = some (Except.ok t) :=
  (adapters_never_raise "openai" (by decide) (failVendors "boom") none envEmpty
    [{ role := "user", content := some "hi" }] (some "gpt-4o") "gpt-4o" "hi" (7 / 10) 1000).1

/-- C5: the session-UI google adapter builds its chat history from
all-but-the-last message, mapping role `user` to `user` and any other
role to `model` with content wrapped as a one-part list, and sends the
final (just-appended) user message's content as the new turn; on the
conversation `[{user, hi}, {assistant, hello}, {user, how are you}]` the
history has exactly the two entries `user`, `model` and the new-turn
argument is exactly `"how are you"`. -/
theorem google_app_history_reconstruction (ms : List Message) (ui mdl : String) :
    (AppUI.googleChatRequestOf ui (appendMessage ms { role := "user", content := some ui }) mdl).history
      = ms.map (fun m =>
          { role := if m.role = "user" then "user" else "model", parts := [m.content] }) ∧
    (AppUI.googleChatRequestOf ui (appendMessage ms { role := "user", content := some ui }) mdl).new_turn
      = ui ∧
    (AppUI.googleChatRequestOf "how are you"
        [{ role := "user", content := some "hi" },
         { role := "assistant", content := some "hello" },
         { role := "user", content := some "how are you" }] mdl).history
      = [{ role := "user", parts := [some "hi"] },
         { role := "model", parts := [some "hello"] }] ∧
    (AppUI.googleChatRequestOf "how are you"
        [{ role := "user", content := some "hi" },
         { role := "assistant", content := some "hello" },
         { role := "user", content := some "how are you" }] mdl).new_turn
      = "how are you" := by
  refine ⟨?_, rfl, ?_, rfl⟩
  · simp [AppUI.googleChatRequestOf, appendMessage]
  · simp [AppUI.googleChatRequestOf]

/-- C6: the HTTP-surface google adapter flattens the whole conversation,
in order, into one newline-delimited transcript in which each user turn
is prefixed `"Human: "` and each non-user turn `"Assistant: "`, and
submits it as a single generation call. -/
theorem google_api_transcript (vendors : Vendors) (env : String → Option String)
    (messages : List Message) (model : Option String) (t : Rat) (k : Int) :
    Api.conversation_text messages
      = String.join (messages.map fun m =>
          (if m.role = "user" then "Human" else "Assistant") ++ ": " ++ pyStr m.content ++ "\n") ∧
    Api.get_google_response vendors env messages model t k
      = pyTry "Google Error: "
          (vendors.googleGenerate (env "GOOGLE_API_KEY")
            { model := model, prompt := Api.conversation_text messages,
              temperature := t, max_output_tokens := k }) := by
  refine ⟨?_, rfl⟩
  apply String.ext
  rw [Api.conversation_text, foldl_append_data]
  simp only [String.data_join, List.map_map, List.nil_append]
  congr 1

/-- C7: the credential resolver prefers the structured secrets store's
`api_keys` namespace when it is present and contains the key, falls back
to the process environment variable of the same name, and otherwise
yields `none`; with `required` not set, absence is never an error. -/
theorem credential_resolution_order (secrets : Option (String → Option String))
    (env : String → Option String) (key : String) :
    (∀ store v, secrets = some store → store key = some v →
        get_env_var secrets env key none false = Except.ok (some v)) ∧
    (∀ store, secrets = some store → store key = none →
        get_env_var secrets env key none false = Except.ok (env key)) ∧
    (secrets = none → get_env_var secrets env key none false = Except.ok (env key)) ∧
    (∀ default, ∃ v, get_env_var secrets env key default false = Except.ok v) := by
  refine ⟨?_, ?_, ?_, fun default => get_env_var_ok ..⟩
  · intro store v hs hv
    subst hs
    simp [get_env_var, hv]
  · intro store hs hv
    subst hs
    simp only [get_env_var, hv]
    cases env key <;> simp
  · intro hs
    subst hs
    simp only [get_env_var]
    cases env key <;> simp

/-- Witness for C7 at concrete inputs: a secrets store holding the key, an
empty environment. -/
theorem credential_resolution_order_witness :
    get_env_var (some fun k => if k = "OPENAI_API_KEY" then some "sk-test" else none)
        envEmpty "OPENAI_API_KEY" none false
      = Except.ok (some "sk-test") :=
  (credential_resolution_order _ envEmpty "OPENAI_API_KEY").1 _ "sk-test" rfl (by decide)

/-- C8: appending a user message and then an assistant message to the
empty conversation yields exactly the ordered two-element sequence with
roles `user` then `assistant` and both contents preserved unchanged. -/
theorem conversation_round_trip (cu ca : String) :
    appendMessage (appendMessage [] { role := "user", content := some cu })
        { role := "assistant", content := some ca }
      = [{ role := "user", content := some cu },
         { role := "assistant", content := some ca }] ∧
    (appendMessage (appendMessage [] { role := "user", content := some cu })
        { role := "assistant", content := some ca }).length = 2 :=
  ⟨rfl, rfl⟩

/-- C2 counterexample: with provider `"openai"` and a vendor call that
raises `"boom"`, the adapter-level failure is delivered under
`success: true` — the handler wraps the adapter's error diagnostic as the
response text, contradicting the claim that a Failure is never delivered
under `success: true`. -/
theorem chat_delivers_adapter_failure_as_success :
    (failVendors "boom").openaiChat (envEmpty "OPENAI_API_KEY")
        { model := some "gpt-4o",
          messages := [{ role := "user", content := some "hi" }],
          temperature := 7 / 10, max_tokens := 1000 }
      = Except.error "boom" ∧
    Api.chat (failVendors "boom") envEmpty
        { message := some "hi", provider := some "openai", model := some "gpt-4o",
          temperature := none, max_tokens := none, messages := [] }
      = Api.ChatResponse.success "OpenAI Error: boom" :=
  ⟨rfl, by rfl⟩

/-- C2 amended: the handler appends the user turn and dispatches; it
responds `success: true` exactly when the provider is one of the four
recognized values — delivering whatever string the adapter returned,
which may itself be an error diagnostic — and responds with a failure
exactly when the provider is invalid (the adapters never raise, so the
outer catch-all never fires on the dispatch). -/
theorem chat_success_characterization (vendors : Vendors)
    (env : String → Option String) (body : Api.ChatBody) :
    ((∃ r, Api.chat vendors env body = Api.ChatResponse.success r) ↔
      (body.provider = some "openai" ∨ body.provider = some "anthropic" ∨
        body.provider = some "google" ∨ body.provider = some "groq")) ∧
    (∀ t, Api.dispatchAdapter body.provider vendors env
        (appendMessage body.messages { role := "user", content := body.message })
        body.model (body.temperature.getD (7 / 10)) (body.max_tokens.getD 1000)
        = some (Except.ok t) →
      Api.chat vendors env body = Api.ChatResponse.success t) := by
  constructor
  · constructor
    · rintro ⟨r, hr⟩
      by_contra hnot
      push_neg at hnot
      obtain ⟨h1, h2, h3, h4⟩ := hnot
      simp [Api.chat, Api.dispatchAdapter, h1, h2, h3, h4] at hr
    · intro hp
      rcases hp with hp | hp | hp | hp
      · obtain ⟨r, hr⟩ := api_openai_ok vendors env
          (appendMessage body.messages { role := "user", content := body.message })
          body.model (body.temperature.getD (7 / 10)) (body.max_tokens.getD 1000)
        exact ⟨r, by simp [Api.chat, Api.dispatchAdapter, hp, hr]⟩
      · obtain ⟨r, hr⟩ := api_anthropic_ok vendors env
          (appendMessage body.messages { role := "user", content := body.message })
          body.model (body.temperature.getD (7 / 10)) (body.max_tokens.getD 1000)
        exact ⟨r, by simp [Api.chat, Api.dispatchAdapter, hp, hr]⟩
      · obtain ⟨r, hr⟩ := api_google_ok vendors env
          (appendMessage body.messages { role := "user", content := body.message })
          body.model (body.temperature.getD (7 / 10)) (body.max_tokens.getD 1000)
        exact ⟨r, by simp [Api.chat, Api.dispatchAdapter, hp, hr]⟩
      · obtain ⟨r, hr⟩ := api_groq_ok vendors env
          (appendMessage body.messages { role := "user", content := body.message })
          body.model (body.temperature.getD (7 / 10)) (body.max_tokens.getD 1000)
        exact ⟨r, by simp [Api.chat, Api.dispatchAdapter, hp, hr]⟩
  · intro t ht
    simp [Api.chat, ht]

/-- Witness for the amended C2 at a concrete input: a recognized provider
with a raising vendor world yields a `success: true` response. -/
theorem chat_success_characterization_witness :
    ∃ r, Api.chat (failVendors "boom") envEmpty
        { message := some "hi", provider := some "openai", model := some "gpt-4o",
          temperature := none, max_tokens := none, messages := [] }
      = Api.ChatResponse.success r :=
  ((chat_success_characterization (failVendors "boom") envEmpty
      { message := some "hi", provider := some "openai", model := some "gpt-4o",
        temperature := none, max_tokens := none,
        messages := [] }).1).mpr (Or.inl rfl)

/-- C3 counterexample: the session-UI dispatch answers an unrecognized
provider with the plain string `"Provider not configured."` (delivered as
a normal value), not a failure whose message is `"Invalid provider"`. -/
theorem submit_unknown_provider_not_invalid :
    AppUI.submitDispatch "not-a-real-provider" (failVendors "boom") none envEmpty
        "hi" [{ role := "user", content := some "hi" }] "gemini-2.5-flash" (7 / 10) 1000
      = Except.ok "Provider not configured." ∧
    ("Provider not configured." : String) ≠ "Invalid provider" :=
  ⟨rfl, by decide⟩

/-- C3 amended: on the HTTP endpoint every unrecognized provider yields
the failure with message exactly `"Invalid provider"` without invoking
any adapter; the session-UI dispatch instead yields the plain string
`"Provider not configured."` for unrecognized providers, likewise without
invoking any adapter (neither result depends on the vendor world). -/
theorem invalid_provider_behaviour (vendors : Vendors) (env : String → Option String)
    (body : Api.ChatBody)
    (hp : body.provider ∉
      ([some "openai", some "anthropic", some "google", some "groq"] : List (Option String))) :
    Api.chat vendors env body = Api.ChatResponse.failure "Invalid provider" ∧
    ∀ (p : String), p ∉ (["OpenAI", "Anthropic", "Google", "Groq"] : List String) →
      ∀ (vendors2 : Vendors) (secrets : Option (String → Option String))
        (env2 : String → Option String) (ui : String) (messages : List Message)
        (model : String) (t : Rat) (k : Int),
        AppUI.submitDispatch p vendors2 secrets env2 ui messages model t k
          = Except.ok "Provider not configured." := by
  constructor
  · simp only [List.mem_cons, List.not_mem_nil, or_false, not_or] at hp
    obtain ⟨h1, h2, h3, h4⟩ := hp
    simp [Api.chat, Api.dispatchAdapter, h1, h2, h3, h4]
  · intro p hq vendors2 secrets env2 ui messages model t k
    simp only [List.mem_cons, List.not_mem_nil, or_false, not_or] at hq
    obtain ⟨g1, g2, g3, g4⟩ := hq
    simp [AppUI.submitDispatch, g1, g2, g3, g4]

/-- Witness for the amended C3 at concrete inputs: an unrecognized
provider at the HTTP endpoint. -/
theorem invalid_provider_behaviour_witness :
    Api.chat (failVendors "boom") envEmpty
        { message := some "hi", provider := some "not-a-real-provider", model := none,
          temperature := none, max_tokens := none, messages := [] }
      = Api.ChatResponse.failure "Invalid provider" :=
  (invalid_provider_behaviour (failVendors "boom") envEmpty
      { message := some "hi", provider := some "not-a-real-provider", model := none,
        temperature := none, max_tokens := none, messages := [] }
      (by decide)).1

/-- C4 counterexample: on the session-UI surface, the openai adapter's
failure message for a raising vendor call is `"Error: boom"`, which does
not contain the provider's name — the claim fails on that surface. -/
theorem app_error_message_lacks_provider_name :
    AppUI.get_openai_response (failVendors "boom") none envEmpty "hi"
        [{ role := "user", content := some "hi" }] "gpt-4o" (7 / 10) 1000
      = Except.ok "Error: boom" ∧
    ¬ List.IsInfix ("OpenAI" : String).data ("Error: boom" : String).data :=
  ⟨rfl, by decide⟩

/-- C4 amended: whenever the vendor call fails (raising with message
`e`, which covers a missing credential), the HTTP-surface adapters
return a diagnostic prefixed with the provider's name
(`"OpenAI Error: "`, `"Anthropic Error: "`, `"Google Error: "`,
`"Groq Error: "`), while the session-UI adapters return the diagnostic
prefixed only with `"Error: "`, without the provider's name. -/
theorem adapter_error_message_shapes (e : String)
    (secrets : Option (String → Option String)) (env : String → Option String)
    (messages : List Message) (model : Option String) (mdl ui : String)
    (t : Rat) (k : Int) :
    Api.get_openai_response (failVendors e) env messages model t k
      = Except.ok ("OpenAI Error: " ++ e) ∧
    Api.get_anthropic_response (failVendors e) env messages model t k
      = Except.ok ("Anthropic Error: " ++ e) ∧
    Api.get_google_response (failVendors e) env messages model t k
      = Except.ok ("Google Error: " ++ e) ∧
    Api.get_groq_response (failVendors e) env messages model t k
      = Except.ok ("Groq Error: " ++ e) ∧
    AppUI.get_openai_response (failVendors e) secrets env ui messages mdl t k
      = Except.ok ("Error: " ++ e) ∧
    AppUI.get_anthropic_response (failVendors e) secrets env ui messages mdl t k
      = Except.ok ("Error: " ++ e) ∧
    AppUI.get_google_response (failVendors e) secrets env ui messages mdl
      = Except.ok ("Error: " ++ e) ∧
    AppUI.get_groq_response (failVendors e) secrets env ui messages mdl t k
      = Except.ok ("Error: " ++ e) := by
  obtain ⟨v1, hv1⟩ := get_env_var_ok secrets env "OPENAI_API_KEY" none
  obtain ⟨v2, hv2⟩ := get_env_var_ok secrets env "ANTHROPIC_API_KEY" none
  obtain ⟨v3, hv3⟩ := get_env_var_ok secrets env "GOOGLE_API_KEY" none
  obtain ⟨v4, hv4⟩ := get_env_var_ok secrets env "GROQ_API_KEY" none
  refine ⟨rfl, rfl, rfl, rfl, ?_, ?_, ?_, ?_⟩
  · simp [AppUI.get_openai_response, get_openai_key, hv1, failVendors, pyTry, Except.bind]
  · simp [AppUI.get_anthropic_response, get_anthropic_key, hv2, failVendors, pyTry, Except.bind]
  · simp [AppUI.get_google_response, get_gemini_key, hv3, failVendors, pyTry, Except.bind]
  · simp [AppUI.get_groq_response, get_groq_key, hv4, failVendors, pyTry, Except.bind]

/-- C9: provider selection at the HTTP endpoint is exact, case-sensitive
string comparison against the four lowercase identifiers: any provider
string differing in any character or case reaches no adapter branch
(the dispatch is `none`) and the endpoint answers the Invalid-provider
failure. -/
theorem provider_matching_case_sensitive (vendors : Vendors)
    (env : String → Option String) (body : Api.ChatBody) (p : String)
    (hb : body.provider = some p)
    (hp : p ∉ (["openai", "anthropic", "google", "groq"] : List String)) :
    Api.dispatchAdapter body.provider vendors env
        (appendMessage body.messages { role := "user", content := body.message })
        body.model (body.temperature.getD (7 / 10)) (body.max_tokens.getD 1000)
      = none ∧
    Api.chat vendors env body = Api.ChatResponse.failure "Invalid provider" := by
  simp only [List.mem_cons, List.not_mem_nil, or_false, not_or] at hp
  obtain ⟨h1, h2, h3, h4⟩ := hp
  constructor
  · simp [Api.dispatchAdapter, hb, h1, h2, h3, h4]
  · simp [Api.chat, Api.dispatchAdapter, hb, h1, h2, h3, h4]

/-- Witness for C9 at a concrete input: the capitalized provider string
`"OpenAI"` is rejected. -/
theorem provider_matching_case_sensitive_witness :
    Api.chat (failVendors "boom") envEmpty
        { message := some "hi", provider := some "OpenAI", model := some "gpt-4o",
          temperature := none, max_tokens := none, messages := [] }
      = Api.ChatResponse.failure "Invalid provider" :=
  (provider_matching_case_sensitive (failVendors "boom") envEmpty
      { message := some "hi", provider := some "OpenAI", model := some "gpt-4o",
        temperature := none, max_tokens := none, messages := [] }
      "OpenAI" rfl (by decide)).2

/-- C10: a request body without a `message` key gets the turn
`{role: "user", content: null}` appended, and when the provider is one of
the four recognized values that list — null content included — is what
the chosen adapter receives, and the request is answered with
`success: true` rather than rejected. -/
theorem missing_message_appends_null_turn (vendors : Vendors)
    (env : String → Option String) (body : Api.ChatBody)
    (hm : body.message = none) (p : String) (hb : body.provider = some p)
    (hp : p ∈ (["openai", "anthropic", "google", "groq"] : List String)) :
    ∃ t, Api.dispatchAdapter body.provider vendors env
          (appendMessage body.messages { role := "user", content := none })
          body.model (body.temperature.getD (7 / 10)) (body.max_tokens.getD 1000)
        = some (Except.ok t) ∧
      Api.chat vendors env body = Api.ChatResponse.success t := by
  simp only [List.mem_cons, List.not_mem_nil, or_false] at hp
  rcases hp with rfl | rfl | rfl | rfl
  · obtain ⟨r, hr⟩ := api_openai_ok vendors env
      (appendMessage body.messages { role := "user", content := none })
      body.model (body.temperature.getD (7 / 10)) (body.max_tokens.getD 1000)
    exact ⟨r, by simp [Api.dispatchAdapter, hb, hr],
      by simp [Api.chat, Api.dispatchAdapter, hb, hm, hr]⟩
  · obtain ⟨r, hr⟩ := api_anthropic_ok vendors env
      (appendMessage body.messages { role := "user", content := none })
      body.model (body.temperature.getD (7 / 10)) (body.max_tokens.getD 1000)
    exact ⟨r, by simp [Api.dispatchAdapter, hb, hr],
      by simp [Api.chat, Api.dispatchAdapter, hb, hm, hr]⟩
  · obtain ⟨r, hr⟩ := api_google_ok vendors env
      (appendMessage body.messages { role := "user", content := none })
      body.model (body.temperature.getD (7 / 10)) (body.max_tokens.getD 1000)
    exact ⟨r, by simp [Api.dispatchAdapter, hb, hr],
      by simp [Api.chat, Api.dispatchAdapter, hb, hm, hr]⟩
  · obtain ⟨r, hr⟩ := api_groq_ok vendors env
      (appendMessage body.messages { role := "user", content := none })
      body.model (body.temperature.getD (7 / 10)) (body.max_tokens.getD 1000)
    exact ⟨r, by simp [Api.dispatchAdapter, hb, hr],
      by simp [Api.chat, Api.dispatchAdapter, hb, hm, hr]⟩

/-- Witness for C10 at a concrete input: a body with no `message` key and
provider `"google"`. -/
theorem missing_message_appends_null_turn_witness :
    ∃ t, Api.dispatchAdapter (some "google") (failVendors "boom") envEmpty
          (appendMessage [] { role := "user", content := none })
          (some "gemini-2.5-flash") ((none : Option Rat).getD (7 / 10))
          ((none : Option Int).getD 1000)
        = some (Except.ok t) ∧
      Api.chat (failVendors "boom") envEmpty
          { message := none, provider := some "google", model := some "gemini-2.5-flash",
            temperature := none, max_tokens := none, messages := [] }
        = Api.ChatResponse.success t :=
  missing_message_appends_null_turn (failVendors "boom") envEmpty
    { message := none, provider := some "google", model := some "gemini-2.5-flash",
      temperature := none, max_tokens := none, messages := [] }
    rfl "google" rfl (by decide)

end LLMPlayground
